import Mathlib

/- Verification development for the RedditReady repository.

The repository holds two near-duplicate Python programs,
`redditresearchagent.py` (OpenAI/LangChain backend) and
`redditresearchagent_gemini.py` (Gemini backend).  Each one drafts a Reddit
post with an LLM, submits it, polls the thread for comments on a fixed
timer, optionally replies to worthy comments, and persists a JSON record.

This file is a shallow embedding of that code.  External collaborators (the
Reddit client, the LLM backends, the TextBlob sentiment tool, the wall
clock) are modelled as explicit oracle inputs: an `Env` value records what
the platform and the LLM would answer at each step, and the embedded
functions compute what the Python code does with those answers.  Machine
integers are `Int`/`Nat`; the float constant `upvote_ratio_threshold = 0.05`
is modelled as the exact rational `5/100`.  Python exceptions are modelled
with `Option` (`none` = the statement raised).

Python-semantics note used throughout: `DataCollectionAgent.update_post`
and `DataCollectionAgent.add_reply` are declared with two required
positional parameters `(research_id, data)`, but every call site in both
files passes a single argument.  In Python such a call raises `TypeError`
before the method body starts executing.  The embedding keeps both the
methods as declared and, separately, the one-argument call sites as the
raising computations they are. -/

namespace RedditReady

/- Configuration constants of `Config` in redditresearchagent.py
(lines 21-29).  The Python dataclass defaults are read as class attributes
(`Config.min_upvotes` etc.), so they are plain constants. -/

namespace Config

/-- Monitoring window in seconds (`monitoring_duration = 21600`). -/
def monitoring_duration : Nat := 21600

/-- Polling interval in seconds (`check_interval = 3600`). -/
def check_interval : Nat := 3600

/-- Cap on bot replies in one run (`max_replies_per_thread = 4`). -/
def max_replies_per_thread : Nat := 4

/-- Score-ratio threshold (`upvote_ratio_threshold = 0.05`), modelled as the
exact rational five hundredths. -/
def upvote_ratio_threshold : ℚ := 5 / 100

/-- Minimum seconds between rate-limited API calls (`rate_limit_delay = 120`). -/
def rate_limit_delay : Nat := 120

/-- Minimum comment score for a reply (`min_upvotes = 5`). -/
def min_upvotes : Int := 5

end Config

/- Python string splitting, needed for the title/body split
`post_content.split('\n')` at lines 274-275.  Python strings are modelled
as `List Char`. -/

/-- Python `s.split('\n')`: cut the character list at every newline, keeping
empty pieces, with `[] -> [[]]` exactly as Python maps `"" -> [""]`. -/
def pySplitNL : List Char → List (List Char)
  | [] => [[]]
  | c :: rest =>
    if c = '\n' then [] :: pySplitNL rest
    else
      match pySplitNL rest with
      | [] => [[c]]
      | g :: gs => (c :: g) :: gs

/-- Python `'\n'.join(groups)`: interleave a newline between the pieces. -/
def joinNL : List (List Char) → List Char
  | [] => []
  | [g] => g
  | g :: g2 :: gs => g ++ '\n' :: joinNL (g2 :: gs)

/-- Title of a drafted post: `post_content.split('\n')[0]` (line 274). -/
def pyTitle (s : List Char) : List Char := (pySplitNL s).headD []

/-- Body of a drafted post: `'\n'.join(post_content.split('\n')[1:])`
(line 275). -/
def pyBody (s : List Char) : List Char := joinNL ((pySplitNL s).drop 1)

/- Data model: `ResearchData` (lines 31-43) and the dictionaries that flow
into it. -/

/-- A Python string-to-string dictionary, as an insertion-ordered
association list. -/
abbrev Dict := List (String × String)

/-- One entry of `interactions['replies']`: the dictionaries built at
lines 314-321 and 334-341 share these keys (`id`, `content`, `upvotes`,
`sentiment` with polarity and subjectivity, `timestamp`,
`is_bot_generated`). -/
structure ReplySnapshot where
  id : String
  content : String
  upvotes : Int
  polarity : ℚ
  subjectivity : ℚ
  timestamp : Nat
  is_bot_generated : Bool
deriving DecidableEq, Repr

/-- The `ResearchData` dataclass (lines 31-43).  The
`interactions['metrics']` sub-dictionary is initialized to constants at
lines 212-216 and never read or written again anywhere in either file, so
it is not carried; `interactions['replies']` is the `replies` field. -/
structure ResearchData where
  research_id : String
  original_prompt : String
  subreddit : String
  style_template : String
  post : Dict
  replies : List ReplySnapshot
deriving DecidableEq, Repr

/-- The `DataCollectionAgent.data` dictionary, keyed by research id
(line 194), insertion-ordered like a Python dict. -/
abbrev DataStore := List (String × ResearchData)

/-- Python dict lookup `data[k]` (as an `Option`; `none` is `KeyError`). -/
def storeGet (store : DataStore) (k : String) : Option ResearchData :=
  (store.find? (fun kv => kv.1 == k)).map (fun kv => kv.2)

/-- Python dict assignment `data[k] = v`: overwrite in place if the key
exists, else append (insertion order preserved). -/
def storeSet (store : DataStore) (k : String) (v : ResearchData) : DataStore :=
  if store.any (fun kv => kv.1 == k) then
    store.map (fun kv => if kv.1 == k then (k, v) else kv)
  else store ++ [(k, v)]

namespace DataCollectionAgent

/-- The method `initialize_research` (lines 196-218): store a fresh record
with an empty post dict and no interaction snapshots. -/
def initialize_research (store : DataStore)
    (research_id prompt subreddit style_template : String) : DataStore :=
  storeSet store research_id
    { research_id := research_id
      original_prompt := prompt
      subreddit := subreddit
      style_template := style_template
      post := []
      replies := [] }

/-- The method `update_post` as declared (lines 220-222), with its two
required parameters: `self.data[research_id].post = post_data`.  `none` is
the `KeyError` raised when the id is absent. -/
def update_post (store : DataStore) (research_id : String)
    (post_data : Dict) : Option DataStore :=
  match storeGet store research_id with
  | none => none
  | some r => some (storeSet store research_id { r with post := post_data })

/-- The method `add_reply` as declared (lines 224-226), with its two
required parameters: append one snapshot to
`self.data[research_id].interactions['replies']`. -/
def add_reply (store : DataStore) (research_id : String)
    (reply_data : ReplySnapshot) : Option DataStore :=
  match storeGet store research_id with
  | none => none
  | some r =>
    some (storeSet store research_id { r with replies := r.replies ++ [reply_data] })

/-- The method `save_research` (lines 228-231): serialize
`self.data[research_id]` to the file at `filepath` (`none` is the
`KeyError` raised when the id is absent; the JSON encoding itself is kept
abstract, the written record is carried verbatim). -/
def save_research (store : DataStore) (research_id filepath : String) :
    Option (String × ResearchData) :=
  (storeGet store research_id).map (fun r => (filepath, r))

end DataCollectionAgent

/-- The call `self.data_agent.update_post({...})` at lines 278-283 and
299-302 passes ONE positional argument to the two-parameter method
`update_post(research_id, post_data)`.  Python raises `TypeError: missing 1
required positional argument` before the method body runs, so the store is
never touched; the call is the constant raising computation. -/
def update_post_call1 (_store : DataStore) (_post_data : Dict) :
    Option DataStore := none

/-- The call `self.data_agent.add_reply({...})` at lines 314-321 and
334-341 likewise passes ONE positional argument to the two-parameter method
`add_reply(research_id, reply_data)`: Python raises `TypeError` before the
body runs. -/
def add_reply_call1 (_store : DataStore) (_reply_data : ReplySnapshot) :
    Option DataStore := none

/-- The predicate `ResponseAnalysisAgent.should_reply` (lines 164-169):
`comment.score > Config.min_upvotes and comment.score > post_score *
Config.upvote_ratio_threshold`. -/
def should_reply (score : Int) (post_score : Int) : Bool :=
  decide (Config.min_upvotes < score) &&
    decide ((post_score : ℚ) * Config.upvote_ratio_threshold < (score : ℚ))

/-- The method `ResponseAnalysisAgent.analyze_sentiment` (lines 156-162)
delegates entirely to TextBlob; the external tool is an oracle from text to
a (polarity, subjectivity) pair and the method returns its answer. -/
def analyze_sentiment (textblob : String → ℚ × ℚ) (text : String) : ℚ × ℚ :=
  textblob text

/-- The method `RedditAPI._respect_rate_limit` (lines 57-63): with
`last` the stored `last_api_call` and `now` the clock at entry, sleep
`rate_limit_delay - (now - last)` when the elapsed time is under the delay,
then read the clock again.  The result is the new `last_api_call`, which is
also the time at which the guarded API call proceeds. -/
def respect_rate_limit (last now : Nat) : Nat :=
  if now - last < Config.rate_limit_delay then
    now + (Config.rate_limit_delay - (now - last))
  else now

/-- The method `GeminiWrapper.generate_text` of redditresearchagent_gemini.py
(lines 57-64).  The provider is an oracle from prompt to either a text or a
raised error; the wrapper catches any error, logs it (observable only on
stdout, not modelled) and returns the empty string. -/
def GeminiWrapper.generate_text (model : String → Except String String)
    (prompt : String) : String :=
  match model prompt with
  | Except.ok t => t
  | Except.error _ => ""

/-- The method `PromptGenerationAgent.generate_post` of
redditresearchagent.py (lines 144-149).  It runs the LangChain chain on the
style guide and research prompt and returns whatever the chain returns,
with NO exception handling: a raised LLM error propagates to the caller,
so the result stays in `Except`. -/
def PromptGenerationAgent.generate_post
    (post_chain : String → String → Except String String)
    (style_guide research_prompt : String) : Except String String :=
  post_chain style_guide research_prompt

/- Environment: what the external collaborators (Reddit, the LLM, TextBlob)
answer during one run.  The monitoring loop re-reads the platform once per
pass, so the platform side of a pass is one `PassObs`. -/

/-- One comment as observed during a polling pass: the fields the loop
reads (`comment.id`, `comment.body`, `comment.score`,
`comment.created_utc`), plus what the platform would answer if the bot
called `comment.reply` on it (`reply_ok = false` means the call raises;
otherwise the created reply object carries id `reply_id`). -/
structure CommentObs where
  id : String
  body : String
  score : Int
  created_utc : Nat
  reply_id : String
  reply_ok : Bool
deriving DecidableEq, Repr

/-- One polling pass as the platform presents it: whether `post.refresh()`
succeeds, whether the refreshed post has a `removed` attribute (the
`hasattr(post, 'removed')` test at line 297), the post's current score, and
the comments listed after `replace_more`. -/
structure PassObs where
  refresh_ok : Bool
  removed_attr : Bool
  post_score : Int
  comments : List CommentObs
deriving DecidableEq, Repr

/-- Answers of all external collaborators for one run: whether the
subreddit resolves, the LLM's style analysis and drafted post, the platform
answer to `subreddit.submit` (`none` = the call raises), the LLM reply
drafter and the TextBlob sentiment tool as oracles, and the per-pass
platform observations. -/
structure Env where
  subreddit_ok : Bool
  style_text : String
  post_content : String
  submit_post_id : Option String
  reply_text : String → String
  sentiment : String → ℚ × ℚ
  passes : List PassObs

/-- Context string handed to the reply drafter (line 326):
`f"Original Post: {post_content}\n\nComment: {comment.body}"`. -/
def replyContext (post_content comment_body : String) : String :=
  "Original Post: " ++ post_content ++ "\n\nComment: " ++ comment_body

/-- The comment-snapshot dictionary built at lines 314-321. -/
def commentSnapshot (env : Env) (c : CommentObs) : ReplySnapshot :=
  { id := c.id
    content := c.body
    upvotes := c.score
    polarity := (analyze_sentiment env.sentiment c.body).1
    subjectivity := (analyze_sentiment env.sentiment c.body).2
    timestamp := c.created_utc
    is_bot_generated := false }

/-- The bot-reply snapshot dictionary built at lines 334-341 (`upvotes` is
the literal 0; the timestamp is the current clock standing in for
`datetime.utcnow()`). -/
def botSnapshot (env : Env) (reply_id reply_content : String) (clock : Nat) :
    ReplySnapshot :=
  { id := reply_id
    content := reply_content
    upvotes := 0
    polarity := (analyze_sentiment env.sentiment reply_content).1
    subjectivity := (analyze_sentiment env.sentiment reply_content).2
    timestamp := clock
    is_bot_generated := true }

/-- Python's `set.add` on the `generated_replies` set (line 331), on a
duplicate-free list. -/
def pySetAdd (s : List String) (x : String) : List String :=
  if s.contains x then s else s ++ [x]

/-- State the monitoring loop threads between passes: the
`generated_replies` set (line 290), the data agent's store, the trace of
replies actually sent to the platform as (parent comment id, reply id)
pairs, and whether the pass executed the `break` at line 303. -/
structure MonState where
  generated_replies : List String
  store : DataStore
  posted : List (String × String)
  broke : Bool
deriving DecidableEq, Repr

/-- The comment loop of one monitoring pass (lines 307-343), with the
code's actual one-argument data-collection calls.  For a comment whose id
is not in `generated_replies` and that satisfies `should_reply`, the first
statement after sentiment analysis is `self.data_agent.add_reply({...})`,
whose `TypeError` is NOT inside the inner try (lines 329-343): it aborts
the whole pass and is caught by the monitoring handler at line 348, which
turns the pass into a no-op.  The code after it (the cap guard, the reply
drafting and posting, the second `add_reply` call inside the inner try) is
translated faithfully even though the abort makes it unreachable. -/
def processCommentsRaw (env : Env) (post_score : Int) (post_content : String)
    (clock : Nat) : List CommentObs → MonState → MonState
  | [], st => st
  | c :: rest, st =>
    if !(st.generated_replies.contains c.id) && should_reply c.score post_score then
      match add_reply_call1 st.store (commentSnapshot env c) with
      | none => st
      | some store1 =>
        let st1 := { st with store := store1 }
        if st1.generated_replies.length < Config.max_replies_per_thread then
          let reply_content := env.reply_text (replyContext post_content c.body)
          if c.reply_ok then
            let st2 := { st1 with
              posted := st1.posted ++ [(c.id, c.reply_id)]
              generated_replies := pySetAdd st1.generated_replies c.reply_id }
            match add_reply_call1 st2.store (botSnapshot env c.reply_id reply_content clock) with
            | none => processCommentsRaw env post_score post_content clock rest st2
            | some store2 =>
              processCommentsRaw env post_score post_content clock rest { st2 with store := store2 }
          else
            processCommentsRaw env post_score post_content clock rest st1
        else processCommentsRaw env post_score post_content clock rest st1
    else processCommentsRaw env post_score post_content clock rest st

/-- One monitoring pass (the body of the while loop, lines 293-343), with
the code's actual one-argument calls.  A failed `post.refresh()` raises and
the pass is a no-op.  When the refreshed post has a `removed` attribute,
the code calls `self.data_agent.update_post({...})` at line 299 BEFORE the
`break` at line 303; the call's `TypeError` is caught at line 348, so the
`broke` outcome of that branch is unreachable. -/
def monitorStep (env : Env) (p : PassObs) (post_content : String)
    (clock : Nat) (st : MonState) : MonState :=
  if !p.refresh_ok then st
  else if p.removed_attr then
    match update_post_call1 st.store
        [("status", "removed"), ("timestamp", toString clock)] with
    | none => st
    | some store1 => { st with store := store1, broke := true }
  else processCommentsRaw env p.post_score post_content clock p.comments st

/-- The monitoring while loop (lines 292-350): while the elapsed time is
under `monitoring_duration`, run one pass, exit early if it broke, else
sleep `check_interval` and continue.  The clock advances only at the
sleeps (the model gives the pass body itself zero duration); the result
pairs the final state with the final clock. -/
def monitorLoop (env : Env) (post_content : String) :
    List PassObs → Nat → Nat → MonState → MonState × Nat
  | [], clock, _start, st => (st, clock)
  | p :: rest, clock, start, st =>
    if clock - start < Config.monitoring_duration then
      let st1 := monitorStep env p post_content clock st
      if st1.broke then (st1, clock)
      else monitorLoop env post_content rest (clock + Config.check_interval) start st1
    else (st, clock)

/- Signature-respecting variant of the same pass.  The shipped code never
records anything because every data-collection call site drops the
`research_id` argument and raises `TypeError`; the `Fix` functions below
are the SAME control flow with those calls passing `research_id` as the
method signatures `update_post(research_id, post_data)` and
`add_reply(research_id, reply_data)` require.  They are used to examine
the loop's decision logic (dedup, cap, removal) independently of that
arity slip, i.e. what the code does once its calls actually reach the
methods it defines. -/

/-- The comment loop with arity-correct data-collection calls: identical to
`processCommentsRaw` except that both `add_reply` call sites pass
`research_id`, as the method declares. -/
def processCommentsFix (env : Env) (research_id : String) (post_score : Int)
    (post_content : String) (clock : Nat) : List CommentObs → MonState → MonState
  | [], st => st
  | c :: rest, st =>
    if !(st.generated_replies.contains c.id) && should_reply c.score post_score then
      match DataCollectionAgent.add_reply st.store research_id (commentSnapshot env c) with
      | none => st
      | some store1 =>
        let st1 := { st with store := store1 }
        if st1.generated_replies.length < Config.max_replies_per_thread then
          let reply_content := env.reply_text (replyContext post_content c.body)
          if c.reply_ok then
            let st2 := { st1 with
              posted := st1.posted ++ [(c.id, c.reply_id)]
              generated_replies := pySetAdd st1.generated_replies c.reply_id }
            match DataCollectionAgent.add_reply st2.store research_id
                (botSnapshot env c.reply_id reply_content clock) with
            | none => processCommentsFix env research_id post_score post_content clock rest st2
            | some store2 =>
              processCommentsFix env research_id post_score post_content clock rest
                { st2 with store := store2 }
          else
            processCommentsFix env research_id post_score post_content clock rest st1
        else processCommentsFix env research_id post_score post_content clock rest st1
    else processCommentsFix env research_id post_score post_content clock rest st

/-- One monitoring pass with arity-correct data-collection calls: on a
`removed` attribute the status update reaches the store and the `break`
executes. -/
def monitorStepFix (env : Env) (research_id : String) (p : PassObs)
    (post_content : String) (clock : Nat) (st : MonState) : MonState :=
  if !p.refresh_ok then st
  else if p.removed_attr then
    match DataCollectionAgent.update_post st.store research_id
        [("status", "removed"), ("timestamp", toString clock)] with
    | none => st
    | some store1 => { st with store := store1, broke := true }
  else processCommentsFix env research_id p.post_score post_content clock p.comments st

/-- The monitoring while loop over the arity-correct pass. -/
def monitorLoopFix (env : Env) (research_id : String) (post_content : String) :
    List PassObs → Nat → Nat → MonState → MonState × Nat
  | [], clock, _start, st => (st, clock)
  | p :: rest, clock, start, st =>
    if clock - start < Config.monitoring_duration then
      let st1 := monitorStepFix env research_id p post_content clock st
      if st1.broke then (st1, clock)
      else monitorLoopFix env research_id post_content rest (clock + Config.check_interval) start st1
    else (st, clock)

/-- Observable outcome of one `run_research` call: the returned value
(`none` = Python `None`), the (title, body) of the post created on the
platform if submission succeeded, the bot replies sent to the platform,
the file written by `save_research` if reached, the final in-memory store,
and the trace of outgoing platform calls as (name, time) pairs. -/
structure RunResult where
  returned : Option String
  submitted : Option (List Char × List Char)
  posted : List (String × String)
  file_written : Option (String × ResearchData)
  store : DataStore
  calls : List (String × Nat)

/-- The coroutine `RedditResearchAgent.run_research` (lines 243-358) of
redditresearchagent.py, over the collaborator answers in `env`, started at
clock `t0`.  `research_id0 = none` takes the time-derived default of
line 251.  `RedditAPI.__init__` sets `last_api_call = 0`; `get_subreddit`
is the only platform call routed through `_respect_rate_limit`, so the
resolution attempt happens at `respect_rate_limit 0 t0` and the hot-posts
listing (inside `analyze_subreddit`) and `subreddit.submit` are issued
directly at the same clock.  After a successful submission the call
`self.data_agent.update_post({...})` at line 278 raises `TypeError`
(single argument against a two-parameter method), the handler at
line 284 catches it and the run returns `None`; the monitoring loop and
`save_research` below it are translated faithfully but sit on that call's
unreachable success branch. -/
def runResearch (env : Env) (research_prompt subreddit_name : String)
    (research_id0 : Option String) (t0 : Nat) : RunResult :=
  let research_id := match research_id0 with
    | some r => r
    | none => "research_" ++ toString t0
  let t1 := respect_rate_limit 0 t0
  if !env.subreddit_ok then
    { returned := none, submitted := none, posted := [], file_written := none
      store := [], calls := [("get_subreddit", t1)] }
  else
    let style_template := env.style_text
    let post_content := env.post_content
    let store0 := DataCollectionAgent.initialize_research [] research_id
      research_prompt subreddit_name style_template
    let calls0 := [("get_subreddit", t1), ("hot", t1), ("submit", t1)]
    match env.submit_post_id with
    | none =>
      { returned := none, submitted := none, posted := [], file_written := none
        store := store0, calls := calls0 }
    | some pid =>
      let submittedPost := some (pyTitle post_content.data, pyBody post_content.data)
      match update_post_call1 store0
          [("id", pid), ("content", post_content),
           ("timestamp", toString t1), ("status", "active")] with
      | none =>
        { returned := none, submitted := submittedPost, posted := []
          file_written := none, store := store0, calls := calls0 }
      | some store1 =>
        let st0 : MonState :=
          { generated_replies := [], store := store1, posted := [], broke := false }
        let res := monitorLoop env post_content env.passes t1 t1 st0
        { returned := some research_id
          submitted := submittedPost
          posted := res.1.posted
          file_written := DataCollectionAgent.save_research res.1.store research_id
            ("research_data_" ++ research_id ++ ".json")
          store := res.1.store
          calls := calls0 }

/- Second variant: redditresearchagent_gemini.py.  Everything below is
translated from that file, independently of the definitions above, so that
the equivalence of the two variants' non-LLM components can be stated and
proved rather than assumed.  The line numbers cited are the Gemini file's
own (Config at lines 20-28, should_reply at 162-167, the data agent at
180-220, run_research at 232-347). -/

namespace Gemini

namespace Config

/-- Gemini-file `monitoring_duration` (line 23). -/
def monitoring_duration : Nat := 21600

/-- Gemini-file `check_interval` (line 24). -/
def check_interval : Nat := 3600

/-- Gemini-file `max_replies_per_thread` (line 25). -/
def max_replies_per_thread : Nat := 4

/-- Gemini-file `upvote_ratio_threshold` (line 26). -/
def upvote_ratio_threshold : ℚ := 5 / 100

/-- Gemini-file `rate_limit_delay` (line 27). -/
def rate_limit_delay : Nat := 120

/-- Gemini-file `min_upvotes` (line 28). -/
def min_upvotes : Int := 5

end Config

/-- Gemini-file `RedditAPI._respect_rate_limit` (lines 78-84). -/
def respect_rate_limit (last now : Nat) : Nat :=
  if now - last < Config.rate_limit_delay then
    now + (Config.rate_limit_delay - (now - last))
  else now

/-- Gemini-file `ResponseAnalysisAgent.should_reply` (lines 162-167). -/
def should_reply (score : Int) (post_score : Int) : Bool :=
  decide (Config.min_upvotes < score) &&
    decide ((post_score : ℚ) * Config.upvote_ratio_threshold < (score : ℚ))

/-- Gemini-file `ResponseAnalysisAgent.analyze_sentiment` (lines 154-160). -/
def analyze_sentiment (textblob : String → ℚ × ℚ) (text : String) : ℚ × ℚ :=
  textblob text

namespace DataCollectionAgent

/-- Gemini-file `initialize_research` (lines 185-207). -/
def initialize_research (store : DataStore)
    (research_id prompt subreddit style_template : String) : DataStore :=
  storeSet store research_id
    { research_id := research_id
      original_prompt := prompt
      subreddit := subreddit
      style_template := style_template
      post := []
      replies := [] }

/-- Gemini-file `update_post` as declared (lines 209-211). -/
def update_post (store : DataStore) (research_id : String)
    (post_data : Dict) : Option DataStore :=
  match storeGet store research_id with
  | none => none
  | some r => some (storeSet store research_id { r with post := post_data })

/-- Gemini-file `add_reply` as declared (lines 213-215). -/
def add_reply (store : DataStore) (research_id : String)
    (reply_data : ReplySnapshot) : Option DataStore :=
  match storeGet store research_id with
  | none => none
  | some r =>
    some (storeSet store research_id { r with replies := r.replies ++ [reply_data] })

/-- Gemini-file `save_research` (lines 217-220). -/
def save_research (store : DataStore) (research_id filepath : String) :
    Option (String × ResearchData) :=
  (storeGet store research_id).map (fun r => (filepath, r))

end DataCollectionAgent

/-- Gemini-file one-argument `update_post` call sites (lines 267-272 and
288-291): the same missing-`research_id` `TypeError` as in the OpenAI
file. -/
def update_post_call1 (_store : DataStore) (_post_data : Dict) :
    Option DataStore := none

/-- Gemini-file one-argument `add_reply` call sites (lines 303-310 and
323-330). -/
def add_reply_call1 (_store : DataStore) (_reply_data : ReplySnapshot) :
    Option DataStore := none

/-- Gemini-file reply context string (line 315). -/
def replyContext (post_content comment_body : String) : String :=
  "Original Post: " ++ post_content ++ "\n\nComment: " ++ comment_body

/-- Gemini-file comment-snapshot dictionary (lines 303-310). -/
def commentSnapshot (env : Env) (c : CommentObs) : ReplySnapshot :=
  { id := c.id
    content := c.body
    upvotes := c.score
    polarity := (analyze_sentiment env.sentiment c.body).1
    subjectivity := (analyze_sentiment env.sentiment c.body).2
    timestamp := c.created_utc
    is_bot_generated := false }

/-- Gemini-file bot-reply snapshot dictionary (lines 323-330). -/
def botSnapshot (env : Env) (reply_id reply_content : String) (clock : Nat) :
    ReplySnapshot :=
  { id := reply_id
    content := reply_content
    upvotes := 0
    polarity := (analyze_sentiment env.sentiment reply_content).1
    subjectivity := (analyze_sentiment env.sentiment reply_content).2
    timestamp := clock
    is_bot_generated := true }

/-- Gemini-file comment loop of one pass (lines 296-332), one-argument
calls included. -/
def processCommentsRaw (env : Env) (post_score : Int) (post_content : String)
    (clock : Nat) : List CommentObs → MonState → MonState
  | [], st => st
  | c :: rest, st =>
    if !(st.generated_replies.contains c.id) && should_reply c.score post_score then
      match add_reply_call1 st.store (commentSnapshot env c) with
      | none => st
      | some store1 =>
        let st1 := { st with store := store1 }
        if st1.generated_replies.length < Config.max_replies_per_thread then
          let reply_content := env.reply_text (replyContext post_content c.body)
          if c.reply_ok then
            let st2 := { st1 with
              posted := st1.posted ++ [(c.id, c.reply_id)]
              generated_replies := pySetAdd st1.generated_replies c.reply_id }
            match add_reply_call1 st2.store (botSnapshot env c.reply_id reply_content clock) with
            | none => processCommentsRaw env post_score post_content clock rest st2
            | some store2 =>
              processCommentsRaw env post_score post_content clock rest { st2 with store := store2 }
          else
            processCommentsRaw env post_score post_content clock rest st1
        else processCommentsRaw env post_score post_content clock rest st1
    else processCommentsRaw env post_score post_content clock rest st

/-- Gemini-file monitoring pass body (lines 282-332). -/
def monitorStep (env : Env) (p : PassObs) (post_content : String)
    (clock : Nat) (st : MonState) : MonState :=
  if !p.refresh_ok then st
  else if p.removed_attr then
    match update_post_call1 st.store
        [("status", "removed"), ("timestamp", toString clock)] with
    | none => st
    | some store1 => { st with store := store1, broke := true }
  else processCommentsRaw env p.post_score post_content clock p.comments st

/-- Gemini-file monitoring while loop (lines 281-339). -/
def monitorLoop (env : Env) (post_content : String) :
    List PassObs → Nat → Nat → MonState → MonState × Nat
  | [], clock, _start, st => (st, clock)
  | p :: rest, clock, start, st =>
    if clock - start < Config.monitoring_duration then
      let st1 := monitorStep env p post_content clock st
      if st1.broke then (st1, clock)
      else monitorLoop env post_content rest (clock + Config.check_interval) start st1
    else (st, clock)

/-- Gemini-file `run_research` (lines 232-347): same sequence as the
OpenAI file, with the LLM answers drawn from the same oracle fields. -/
def runResearch (env : Env) (research_prompt subreddit_name : String)
    (research_id0 : Option String) (t0 : Nat) : RunResult :=
  let research_id := match research_id0 with
    | some r => r
    | none => "research_" ++ toString t0
  let t1 := respect_rate_limit 0 t0
  if !env.subreddit_ok then
    { returned := none, submitted := none, posted := [], file_written := none
      store := [], calls := [("get_subreddit", t1)] }
  else
    let style_template := env.style_text
    let post_content := env.post_content
    let store0 := DataCollectionAgent.initialize_research [] research_id
      research_prompt subreddit_name style_template
    let calls0 := [("get_subreddit", t1), ("hot", t1), ("submit", t1)]
    match env.submit_post_id with
    | none =>
      { returned := none, submitted := none, posted := [], file_written := none
        store := store0, calls := calls0 }
    | some pid =>
      let submittedPost := some (pyTitle post_content.data, pyBody post_content.data)
      match update_post_call1 store0
          [("id", pid), ("content", post_content),
           ("timestamp", toString t1), ("status", "active")] with
      | none =>
        { returned := none, submitted := submittedPost, posted := []
          file_written := none, store := store0, calls := calls0 }
      | some store1 =>
        let st0 : MonState :=
          { generated_replies := [], store := store1, posted := [], broke := false }
        let res := monitorLoop env post_content env.passes t1 t1 st0
        { returned := some research_id
          submitted := submittedPost
          posted := res.1.posted
          file_written := DataCollectionAgent.save_research res.1.store research_id
            ("research_data_" ++ research_id ++ ".json")
          store := res.1.store
          calls := calls0 }

end Gemini

/-- Number of bot-authored reply snapshots held in a store: the
`is_bot_generated = True` entries of every record's interaction list. -/
def botReplyCount (store : DataStore) : Nat :=
  (store.map (fun kv => (kv.2.replies.filter (fun r => r.is_bot_generated)).length)).sum

/- Concrete collaborator answers used to evaluate the embedding on closed
inputs.  Each fixture serves one checked claim. -/

/-- Run in which every platform step succeeds: the subreddit resolves, the
LLM drafts a two-line post, and `subreddit.submit` answers with post id
p1.  No comments arrive. -/
def envA : Env :=
  { subreddit_ok := true
    style_text := "S"
    post_content := "T\nB"
    submit_post_id := some "p1"
    reply_text := fun _ => "thanks"
    sentiment := fun _ => (0, 0)
    passes := [] }

/-- Monitoring-state fixture: the store holds the single record created by
`initialize_research` under id rid, no reply has been generated. -/
def stMon : MonState :=
  { generated_replies := []
    store := DataCollectionAgent.initialize_research [] "rid" "rp" "sub" "S"
    posted := []
    broke := false }

/-- Polling pass on which the platform reports the post removed (the
refreshed post carries a `removed` attribute) and lists no comments. -/
def passRemoved : PassObs :=
  { refresh_ok := true, removed_attr := true, post_score := 0, comments := [] }

/-- Uneventful polling pass: refresh succeeds, no removal, no comments. -/
def passQuiet : PassObs :=
  { refresh_ok := true, removed_attr := false, post_score := 0, comments := [] }

/-- Collaborator answers for the removal scenario (the oracle fields are
never consulted: the passes carry no comments). -/
def envB : Env :=
  { subreddit_ok := true
    style_text := "S"
    post_content := "T\nB"
    submit_post_id := some "p1"
    reply_text := fun _ => "thanks"
    sentiment := fun _ => (0, 0)
    passes := [passRemoved, passQuiet] }

/-- A reply-worthy comment (score 6 against post score 100 clears both
thresholds) as observed on a first pass; replying to it succeeds and the
created reply gets id r1. -/
def cmtFirst : CommentObs :=
  { id := "c1", body := "great point", score := 6, created_utc := 100,
    reply_id := "r1", reply_ok := true }

/-- The same comment c1 as re-fetched on the next pass; a second reply
would get the fresh id r2. -/
def cmtSecond : CommentObs := { cmtFirst with reply_id := "r2" }

/-- First polling pass of the dedup scenario: post score 100, comment c1
visible. -/
def passFirst : PassObs :=
  { refresh_ok := true, removed_attr := false, post_score := 100,
    comments := [cmtFirst] }

/-- Second polling pass of the dedup scenario: the same comment c1 is
listed again. -/
def passSecond : PassObs := { passFirst with comments := [cmtSecond] }

/-- Collaborator answers for the dedup scenario. -/
def envC : Env :=
  { subreddit_ok := true
    style_text := "S"
    post_content := "T\nB"
    submit_post_id := some "p1"
    reply_text := fun _ => "thanks"
    sentiment := fun _ => (0, 0)
    passes := [passFirst, passSecond] }

/-- Run in which subreddit resolution fails (invalid or inaccessible
name): `get_subreddit` returns `None`. -/
def envD : Env :=
  { subreddit_ok := false
    style_text := "S"
    post_content := "T\nB"
    submit_post_id := some "p1"
    reply_text := fun _ => "thanks"
    sentiment := fun _ => (0, 0)
    passes := [] }

/-- Run used to time the platform calls: everything succeeds, the run
starts at clock 200 (so 200 seconds have passed since the initial
`last_api_call = 0` and the limiter does not sleep). -/
def envE : Env :=
  { subreddit_ok := true
    style_text := "S"
    post_content := "T\nB"
    submit_post_id := some "p1"
    reply_text := fun _ => "thanks"
    sentiment := fun _ => (0, 0)
    passes := [] }

/- Helper lemmas. -/

/-- Integer form of the reply-worthiness test, used to evaluate the loop on
concrete inputs (the rational comparison `p * (5/100) < s` is exactly
`5 * p < 100 * s` over the integers). -/
theorem should_reply_eval (s p : Int) :
    should_reply s p = (decide ((5 : Int) < s) && decide (5 * p < 100 * s)) := by
  unfold should_reply Config.min_upvotes Config.upvote_ratio_threshold
  congr 1
  rw [decide_eq_decide]
  rw [show ((p : ℚ) * (5 / 100) < (s : ℚ)) ↔ ((5 * p : ℚ) < 100 * s) from by
    constructor <;> intro h <;> linarith]
  constructor
  · intro h
    exact_mod_cast h
  · intro h
    exact_mod_cast h

/-- Python split never yields an empty list of groups. -/
theorem pySplitNL_ne_nil (s : List Char) : pySplitNL s ≠ [] := by
  cases s with
  | nil => simp [pySplitNL]
  | cons c rest =>
    simp only [pySplitNL]
    split
    · simp
    · split <;> simp

/-- Splitting a string whose prefix up to the first newline is `t`: the
first group is `t` and the rest is the split of the remainder. -/
theorem pySplitNL_append (t b : List Char) (h : '\n' ∉ t) :
    pySplitNL (t ++ '\n' :: b) = t :: pySplitNL b := by
  induction t with
  | nil => simp [pySplitNL]
  | cons c t ih =>
    have hc : ¬ c = '\n' := by
      intro hc
      exact h (by simp [hc])
    have ht : '\n' ∉ t := fun hm => h (List.mem_cons_of_mem _ hm)
    simp only [List.cons_append, pySplitNL, if_neg hc, List.append_eq, ih ht]

/-- Splitting a newline-free string yields that single group. -/
theorem pySplitNL_eq_single (t : List Char) (h : '\n' ∉ t) :
    pySplitNL t = [t] := by
  induction t with
  | nil => rfl
  | cons c t ih =>
    have hc : ¬ c = '\n' := by
      intro hc
      exact h (by simp [hc])
    have ht : '\n' ∉ t := fun hm => h (List.mem_cons_of_mem _ hm)
    simp only [pySplitNL, if_neg hc, ih ht]

/-- Joining with a newline undoes the split. -/
theorem joinNL_pySplitNL (s : List Char) : joinNL (pySplitNL s) = s := by
  induction s with
  | nil => rfl
  | cons c rest ih =>
    rcases hrest : pySplitNL rest with _ | ⟨g, gs⟩
    · exact absurd hrest (pySplitNL_ne_nil rest)
    · rw [hrest] at ih
      by_cases hc : c = '\n'
      · subst hc
        simp only [pySplitNL, if_pos rfl, hrest, joinNL, List.nil_append]
        rw [ih]
      · simp only [pySplitNL, if_neg hc, hrest]
        cases gs with
        | nil =>
          simp only [joinNL] at ih ⊢
          rw [ih]
        | cons g2 gs2 =>
          simp only [joinNL] at ih ⊢
          rw [List.cons_append, ih]

/-- C8.  For every text returned by the post drafter, the submitted title
is exactly the prefix before the first line break and the body exactly the
remainder after it (including the degenerate no-line-break case, where the
whole text is the title and the body is empty; an empty title is not
rejected). -/
theorem title_body_split (t b : List Char) (h : '\n' ∉ t) :
    pyTitle (t ++ '\n' :: b) = t ∧ pyBody (t ++ '\n' :: b) = b ∧
      pyTitle t = t ∧ pyBody t = [] := by
  refine ⟨?_, ?_, ?_, ?_⟩
  · unfold pyTitle
    rw [pySplitNL_append t b h]
    rfl
  · unfold pyBody
    rw [pySplitNL_append t b h]
    simpa using joinNL_pySplitNL b
  · unfold pyTitle
    rw [pySplitNL_eq_single t h]
    rfl
  · unfold pyBody
    rw [pySplitNL_eq_single t h]
    rfl

/-- Witness for C8: the spec's own example, the two-line draft
Title Line / Body line. -/
theorem title_body_split_witness :
    pyTitle ("Title Line\nBody line".data) = "Title Line".data ∧
      pyBody ("Title Line\nBody line".data) = "Body line".data := by
  have h := title_body_split "Title Line".data "Body line".data (by decide)
  exact ⟨h.1, h.2.1⟩

/-- C4.  The reply-worthiness predicate holds exactly when the comment
score clears `min_upvotes` and strictly clears `post_score *
upvote_ratio_threshold`; at boundary equality it answers false.  (It is a
plain function of the two scores, hence pure and deterministic.) -/
theorem should_reply_iff (s p : Int) :
    (should_reply s p = true ↔
      (Config.min_upvotes < s ∧
        (p : ℚ) * Config.upvote_ratio_threshold < (s : ℚ))) ∧
    ((s : ℚ) = (p : ℚ) * Config.upvote_ratio_threshold →
      should_reply s p = false) := by
  constructor
  · simp [should_reply]
  · intro h
    simp [should_reply, ← h]

/-- Witness for C4: score 5 sits exactly on the ratio boundary for post
score 100 (100 · 0.05 = 5), and the predicate answers false there. -/
theorem should_reply_iff_witness : should_reply 5 100 = false :=
  (should_reply_iff 5 100).2 (by norm_num [Config.upvote_ratio_threshold])

/-- Every comment iteration of a shipped-code pass leaves the loop state
untouched: a worthy comment reaches the one-argument `add_reply` call,
which raises and aborts the pass; an unworthy one changes nothing. -/
theorem processCommentsRaw_eq_self (env : Env) (ps : Int) (pc : String) (k : Nat) :
    ∀ (cs : List CommentObs) (st : MonState),
      processCommentsRaw env ps pc k cs st = st := by
  intro cs
  induction cs with
  | nil => intro st; rfl
  | cons c rest ih =>
    intro st
    simp only [processCommentsRaw, add_reply_call1]
    split
    · rfl
    · exact ih st

/-- Every shipped-code monitoring pass is a no-op on the loop state: a
failed refresh is caught; a reported removal reaches the one-argument
`update_post` call, which raises before the `break`; comment processing
never records anything. -/
theorem monitorStep_eq_self (env : Env) (p : PassObs) (pc : String) (k : Nat)
    (st : MonState) : monitorStep env p pc k st = st := by
  unfold monitorStep
  split
  · rfl
  · split
    · simp only [update_post_call1]
    · exact processCommentsRaw_eq_self env p.post_score pc k p.comments st

/-- The shipped-code monitoring loop returns its initial state whatever
the platform reports. -/
theorem monitorLoop_fst_eq_self (env : Env) (pc : String) :
    ∀ (passes : List PassObs) (clock start : Nat) (st : MonState),
      (monitorLoop env pc passes clock start st).1 = st := by
  intro passes
  induction passes with
  | nil => intro clock start st; rfl
  | cons p rest ih =>
    intro clock start st
    simp only [monitorLoop, monitorStep_eq_self]
    split
    · split
      · rfl
      · exact ih _ _ _
    · rfl

/-- C1.  In the code as shipped, `run_research` NEVER returns the research
id and never writes the output file: after a successful submission the
one-argument `update_post` call at line 278 raises `TypeError`, the
submission handler catches it and returns `None`.  On the concrete run
envA both step 1 and step 4 succeed — the post (title T, body B) is live on
the platform — yet the run still answers `None` with no file. -/
theorem run_research_never_returns_id :
    (∀ (env : Env) (rp sn : String) (rid0 : Option String) (t0 : Nat),
        (runResearch env rp sn rid0 t0).returned = none ∧
          (runResearch env rp sn rid0 t0).file_written = none) ∧
      envA.subreddit_ok = true ∧
      envA.submit_post_id = some "p1" ∧
      (runResearch envA "rp" "sub" (some "research_1") 0).submitted =
        some ("T".data, "B".data) ∧
      (runResearch envA "rp" "sub" (some "research_1") 0).returned = none ∧
      (runResearch envA "rp" "sub" (some "research_1") 0).file_written = none := by
  refine ⟨?_, rfl, rfl, rfl, rfl, rfl⟩
  intro env rp sn rid0 t0
  rcases env with ⟨sok, sty, pc, spi, rt, sen, ps⟩
  cases sok <;> cases spi <;> simp [runResearch, update_post_call1]

/-- C2.  On the run envB the platform reports the post removed on the very
first polling pass (`passRemoved.removed_attr = true`), yet the loop does
not exit there: the status-update call raises before the `break`, the pass
is swallowed by the monitoring handler, and the loop keeps polling — it
consumes both passes (final clock two check intervals, still far below the
monitoring duration) and the record's post dict never receives a
removed status (the state is returned untouched, post dict empty). -/
theorem removal_pass_does_not_exit_loop :
    passRemoved.removed_attr = true ∧
    (monitorLoop envB "T\nB" [passRemoved, passQuiet] 0 0 stMon).1 = stMon ∧
    (monitorLoop envB "T\nB" [passRemoved, passQuiet] 0 0 stMon).2 =
      2 * Config.check_interval ∧
    2 * Config.check_interval < Config.monitoring_duration ∧
    (storeGet stMon.store "rid").map (fun r => r.post) = some [] := by
  refine ⟨rfl, monitorLoop_fst_eq_self _ _ _ _ _ _, rfl, by decide, rfl⟩

/-- C3.  Dedup does not work as claimed.  Shipped code: the monitoring
state never changes at all (no reply, no dedup entry — first conjunct), so
nothing is ever "recorded in the generated-replies set".  With the
data-collection calls repaired to their declared two-argument form, the
loop DOES reply, but the set stores the bot reply's own id (r1) while
membership is tested against the comment's id (c1): on the next pass the
same comment c1 is not found in the set and receives a second reply — the
posted trace shows two bot replies to the one comment c1. -/
theorem dedup_tracks_reply_ids_not_comment_ids :
    (monitorLoop envC "T\nB" [passFirst, passSecond] 0 0 stMon).1 = stMon ∧
    (monitorLoopFix envC "rid" "T\nB" [passFirst] 0 0 stMon).1.generated_replies
      = ["r1"] ∧
    (monitorLoopFix envC "rid" "T\nB" [passFirst, passSecond] 0 0 stMon).1.posted
      = [("c1", "r1"), ("c1", "r2")] := by
  refine ⟨monitorLoop_fst_eq_self _ _ _ _ _ _, ?_, ?_⟩
  · simp [monitorLoopFix, monitorStepFix, processCommentsFix, should_reply_eval,
      envC, passFirst, passSecond, cmtFirst, cmtSecond, stMon,
      DataCollectionAgent.add_reply, DataCollectionAgent.initialize_research,
      storeGet, storeSet, pySetAdd, commentSnapshot, botSnapshot,
      analyze_sentiment, replyContext, Config.max_replies_per_thread,
      Config.monitoring_duration, Config.check_interval]
  · simp [monitorLoopFix, monitorStepFix, processCommentsFix, should_reply_eval,
      envC, passFirst, passSecond, cmtFirst, cmtSecond, stMon,
      DataCollectionAgent.add_reply, DataCollectionAgent.initialize_research,
      storeGet, storeSet, pySetAdd, commentSnapshot, botSnapshot,
      analyze_sentiment, replyContext, Config.max_replies_per_thread,
      Config.monitoring_duration, Config.check_interval]

/-- C5.  Over every run, the bot-authored reply snapshots recorded and the
replies posted to the platform never exceed `max_replies_per_thread`.
(The code satisfies this degenerately: the one-argument `add_reply` call
aborts every reply attempt, so both counts are in fact zero; the cap guard
of line 324 also precedes every drafting, as the claim describes.) -/
theorem bot_replies_within_cap (env : Env) (rp sn : String)
    (rid0 : Option String) (t0 : Nat) :
    botReplyCount (runResearch env rp sn rid0 t0).store ≤
      Config.max_replies_per_thread ∧
    (runResearch env rp sn rid0 t0).posted.length ≤
      Config.max_replies_per_thread := by
  rcases env with ⟨sok, sty, pc, spi, rt, sen, ps⟩
  cases sok <;> cases spi <;>
    simp [runResearch, update_post_call1, botReplyCount,
      DataCollectionAgent.initialize_research, storeSet,
      Config.max_replies_per_thread]

/-- C6.  When subreddit resolution fails, the run returns `None`, submits
nothing, replies to nothing, and writes no file. -/
theorem failed_resolution_aborts_run (env : Env) (rp sn : String)
    (rid0 : Option String) (t0 : Nat) (h : env.subreddit_ok = false) :
    (runResearch env rp sn rid0 t0).returned = none ∧
    (runResearch env rp sn rid0 t0).submitted = none ∧
    (runResearch env rp sn rid0 t0).posted = [] ∧
    (runResearch env rp sn rid0 t0).file_written = none := by
  simp [runResearch, h]

/-- Witness for C6: the concrete run envD whose subreddit name does not
resolve. -/
theorem failed_resolution_aborts_run_witness :
    (runResearch envD "rp" "sub" (some "rid") 0).returned = none ∧
    (runResearch envD "rp" "sub" (some "rid") 0).submitted = none ∧
    (runResearch envD "rp" "sub" (some "rid") 0).posted = [] ∧
    (runResearch envD "rp" "sub" (some "rid") 0).file_written = none :=
  failed_resolution_aborts_run envD "rp" "sub" (some "rid") 0 rfl

/-- Counterexample for C7.  In the OpenAI variant the post drafter has no
exception handling: when the LLM chain raises, `generate_post` raises the
same error to its caller — the result is the raised error, not the empty
string the claim promises for both variants. -/
theorem openai_llm_error_propagates :
    PromptGenerationAgent.generate_post (fun _ _ => Except.error "rate limited")
        "sg" "rp" = Except.error "rate limited" := rfl

/-- C7 amended.  Only the Gemini variant degrades an LLM failure to the
empty string (and passes a success through verbatim); the OpenAI variant's
LLM call sites have no local handler, so a failure propagates to the
caller. -/
theorem llm_error_handling_by_variant :
    (∀ (model : String → Except String String) (prompt e : String),
        model prompt = Except.error e →
          GeminiWrapper.generate_text model prompt = "") ∧
    (∀ (model : String → Except String String) (prompt t : String),
        model prompt = Except.ok t →
          GeminiWrapper.generate_text model prompt = t) ∧
    (∀ (chain : String → String → Except String String) (sg rp e : String),
        chain sg rp = Except.error e →
          PromptGenerationAgent.generate_post chain sg rp = Except.error e) := by
  refine ⟨?_, ?_, ?_⟩
  · intro model prompt e h
    simp [GeminiWrapper.generate_text, h]
  · intro model prompt t h
    simp [GeminiWrapper.generate_text, h]
  · intro chain sg rp e h
    simpa [PromptGenerationAgent.generate_post] using h

/-- Witness for the amended C7: a Gemini provider failure on prompt p
yields the empty string. -/
theorem llm_error_handling_by_variant_witness :
    GeminiWrapper.generate_text (fun _ => Except.error "boom") "p" = "" :=
  llm_error_handling_by_variant.1 (fun _ => Except.error "boom") "p" "boom" rfl

/-- Counterexample for C9.  On the successful concrete run envE started at
clock 200 the resolution call, the hot-posts listing and the submission
are all issued at time 200 — zero seconds apart, though the configured
minimum delay is positive — because `subreddit.hot` and `subreddit.submit`
are invoked directly on the platform objects, never through
`_respect_rate_limit`. -/
theorem submit_is_not_rate_limited :
    (runResearch envE "rp" "sub" (some "rid") 200).calls =
      [("get_subreddit", 200), ("hot", 200), ("submit", 200)] ∧
    0 < Config.rate_limit_delay := by
  exact ⟨rfl, by decide⟩

/-- C9 amended.  The elapsed-time check and blocking sleep exist, but only
subreddit resolution is routed through them: a call guarded by
`_respect_rate_limit` proceeds no earlier than `rate_limit_delay` seconds
after the recorded previous call (and never before the current time),
while post submission (with the hot listing) is issued unthrottled at the
same clock as the resolution that preceded it. -/
theorem rate_limiter_only_guards_resolution :
    (∀ last now : Nat, last ≤ now →
        Config.rate_limit_delay ≤ respect_rate_limit last now - last ∧
          now ≤ respect_rate_limit last now) ∧
    (runResearch envE "rp" "sub" (some "rid") 200).calls =
      [("get_subreddit", 200), ("hot", 200), ("submit", 200)] := by
  refine ⟨?_, rfl⟩
  intro last now h
  unfold respect_rate_limit Config.rate_limit_delay
  split <;> omega

/-- Witness for the amended C9: a limiter-guarded call at clock 50 with
previous call at 0 is pushed to time 120. -/
theorem rate_limiter_only_guards_resolution_witness :
    Config.rate_limit_delay ≤ respect_rate_limit 0 50 - 0 ∧
      (50 : Nat) ≤ respect_rate_limit 0 50 :=
  rate_limiter_only_guards_resolution.1 0 50 (by decide)

/-- Gemini-variant comment iterations are no-ops for the same reason as
the OpenAI variant's: the one-argument `add_reply` call aborts the pass. -/
theorem gemini_processCommentsRaw_eq_self (env : Env) (ps : Int) (pc : String)
    (k : Nat) :
    ∀ (cs : List CommentObs) (st : MonState),
      Gemini.processCommentsRaw env ps pc k cs st = st := by
  intro cs
  induction cs with
  | nil => intro st; rfl
  | cons c rest ih =>
    intro st
    simp only [Gemini.processCommentsRaw, Gemini.add_reply_call1]
    split
    · rfl
    · exact ih st

/-- Gemini-variant monitoring passes are no-ops on the loop state. -/
theorem gemini_monitorStep_eq_self (env : Env) (p : PassObs) (pc : String)
    (k : Nat) (st : MonState) : Gemini.monitorStep env p pc k st = st := by
  unfold Gemini.monitorStep
  split
  · rfl
  · split
    · simp only [Gemini.update_post_call1]
    · exact gemini_processCommentsRaw_eq_self env p.post_score pc k p.comments st

/-- The two variants' monitoring loops agree on the full result, final
clock included. -/
theorem gemini_monitorLoop_eq (env : Env) (pc : String) :
    ∀ (passes : List PassObs) (clock start : Nat) (st : MonState),
      Gemini.monitorLoop env pc passes clock start st =
        monitorLoop env pc passes clock start st := by
  intro passes
  induction passes with
  | nil => intro clock start st; rfl
  | cons p rest ih =>
    intro clock start st
    simp only [Gemini.monitorLoop, monitorLoop, gemini_monitorStep_eq_self,
      monitorStep_eq_self, Gemini.Config.monitoring_duration,
      Config.monitoring_duration, Gemini.Config.check_interval,
      Config.check_interval]
    split
    · split
      · rfl
      · exact ih _ _ _
    · rfl

/-- C10.  The two source files' non-LLM components compute the same
functions: the configuration constants coincide, the reply-worthiness
predicate, the sentiment scorer, the four data-collection operations, the
rate limiter, the monitoring loop and the whole orchestration agree
pointwise — so on identical inputs and identical LLM/platform answers the
two variants produce the same submitted post, the same replies and the
same persisted record (the whole `RunResult` is equal). -/
theorem variants_agree_outside_llm :
    (Gemini.Config.monitoring_duration = Config.monitoring_duration ∧
      Gemini.Config.check_interval = Config.check_interval ∧
      Gemini.Config.max_replies_per_thread = Config.max_replies_per_thread ∧
      Gemini.Config.upvote_ratio_threshold = Config.upvote_ratio_threshold ∧
      Gemini.Config.rate_limit_delay = Config.rate_limit_delay ∧
      Gemini.Config.min_upvotes = Config.min_upvotes) ∧
    (∀ s p : Int, Gemini.should_reply s p = should_reply s p) ∧
    (∀ (tb : String → ℚ × ℚ) (t : String),
      Gemini.analyze_sentiment tb t = analyze_sentiment tb t) ∧
    (∀ (st : DataStore) (rid pr sn sty : String),
      Gemini.DataCollectionAgent.initialize_research st rid pr sn sty =
        DataCollectionAgent.initialize_research st rid pr sn sty) ∧
    (∀ (st : DataStore) (rid : String) (pd : Dict),
      Gemini.DataCollectionAgent.update_post st rid pd =
        DataCollectionAgent.update_post st rid pd) ∧
    (∀ (st : DataStore) (rid : String) (rd : ReplySnapshot),
      Gemini.DataCollectionAgent.add_reply st rid rd =
        DataCollectionAgent.add_reply st rid rd) ∧
    (∀ (st : DataStore) (rid fp : String),
      Gemini.DataCollectionAgent.save_research st rid fp =
        DataCollectionAgent.save_research st rid fp) ∧
    (∀ last now : Nat,
      Gemini.respect_rate_limit last now = respect_rate_limit last now) ∧
    (∀ (env : Env) (pc : String) (passes : List PassObs) (clock start : Nat)
      (st : MonState),
      Gemini.monitorLoop env pc passes clock start st =
        monitorLoop env pc passes clock start st) ∧
    (∀ (env : Env) (rp sn : String) (rid0 : Option String) (t0 : Nat),
      Gemini.runResearch env rp sn rid0 t0 = runResearch env rp sn rid0 t0) := by
  refine ⟨⟨rfl, rfl, rfl, rfl, rfl, rfl⟩, fun s p => rfl, fun tb t => rfl,
    fun st rid pr sn sty => rfl, fun st rid pd => rfl, fun st rid rd => rfl,
    fun st rid fp => rfl, fun last now => rfl,
    fun env pc passes clock start st => gemini_monitorLoop_eq env pc passes clock start st,
    fun env rp sn rid0 t0 => rfl⟩

end RedditReady
